import Mathlib

/-!
Verification of the dummy authentication / dummy model provider subsystem of
the `my-vscode-copilot-chat` extension.

The development shallowly embeds:
* `DummyModelProvider` (src/unnamed/part_000, the dummy language-model
  provider class) — model listing gated on the `my-dummy-authentication`
  session, and the chat-response streaming entry point;
* `DummyProvidersContribution`
  (src/src/extension/dummyProviders/vscode-node/dummyProvidersContribution.ts)
  — the session-lifecycle coordinator glue: the
  `github.copilot.dummyAuth.signedIn` context key, the
  `onDidChangeSessions` handler, `requestSessionAccess`, and the
  sign-in / sign-out command handlers;
* the OAuth2 / PKCE / session-store core, whose implementation files are not
  part of the sources here; those components are modelled from the
  specification text (each such definition is marked `Modelled from the
  spec:`).

Host effects (context-key writes, event firing, message boxes) are modelled
as explicit state passing and emitted-action lists; every handler is embedded
as a total function executed atomically.
-/

namespace DummyProviders

/-! ## Dummy model provider (`DummyModelProvider`, src/unnamed/part_000) -/

/-- An authentication session as seen through `vscode.authentication.getSession`:
a session id and an account label (token details are irrelevant to the model
provider, which only checks existence). -/
structure AuthSession where
  id : String
  accountLabel : String
deriving DecidableEq, Repr

/-- The fields of `vscode.LanguageModelChatInformation` that the dummy models
populate (src/unnamed/part_000, lines 2117–2164). -/
structure ModelInfo where
  id : String
  name : String
  family : String
  tooltip : String
  detail : String
  maxInputTokens : Nat
  maxOutputTokens : Nat
  version : String
  isUserSelectable : Bool
  toolCalling : Bool
deriving DecidableEq, Repr

/-- The literal three-model list returned by
`DummyModelProvider.provideLanguageModelChatInformation` when a session
exists (src/unnamed/part_000, lines 2117–2164). -/
def dummyModels : List ModelInfo :=
  [ ⟨"dummy-fast", "Dummy Fast Model", "dummy-fast",
      "A fast dummy model for testing (requires dummy auth)", "1x",
      100000, 4096, "1.0.0", true, true⟩,
    ⟨"dummy-smart", "Dummy Smart Model", "dummy-smart",
      "A smarter dummy model for testing (requires dummy auth)", "2x",
      200000, 8192, "1.0.0", true, true⟩,
    ⟨"dummy-pro", "Dummy Pro Model", "dummy-pro",
      "A pro dummy model for testing (requires dummy auth)", "3x",
      300000, 16384, "1.0.0", true, true⟩ ]

/-- `DummyModelProvider.provideLanguageModelChatInformation`
(src/unnamed/part_000, lines 2098–2167): queries the
`my-dummy-authentication` session (`createIfNone: false, silent: true`);
with no session it returns `[]`, otherwise the fixed three-model list.
The session argument is the result of that query. -/
def provideLanguageModelChatInformation (session : Option AuthSession) :
    List ModelInfo :=
  match session with
  | none => []
  | some _ => dummyModels

/-- One entry of a chat message's `content` array: a
`LanguageModelTextPart` or some other part kind. -/
inductive MsgPart where
  | text (value : String)
  | other
deriving DecidableEq, Repr

/-- A `vscode.LanguageModelChatMessage` as read by the dummy provider: its
`content` is either a plain string or an array of parts (the code branches on
`typeof lastMessage.content === 'string'`). -/
structure ChatMessage where
  content : String ⊕ List MsgPart
deriving DecidableEq, Repr

/-- The `typeof content === 'string' ? content : content.map(...).join('')`
extraction of the last message's text (src/unnamed/part_000,
lines 2193–2197). -/
def messageText (m : ChatMessage) : String :=
  match m.content with
  | Sum.inl s => s
  | Sum.inr parts =>
      String.join (parts.map (fun p =>
        match p with
        | MsgPart.text v => v
        | MsgPart.other => "[non-text]"))

/-- JS `String.prototype.substring(0, n)` on our strings. -/
def substring0 (s : String) (n : Nat) : String :=
  String.mk (s.data.take n)

/-- `DummyModelProvider.generateDummyResponse` (src/unnamed/part_000,
lines 2247–2262): four templates, selected by `userMessage.length % 4`. -/
def generateDummyResponse (modelName : String) (userMessage : String)
    (messageCount : Nat) : String :=
  let responses : List String :=
    [ "Hello! I'm the " ++ modelName ++
        ", a dummy AI model for testing. You said: \"" ++
        substring0 userMessage 50 ++
        (if userMessage.length > 50 then "..." else "") ++ "\"",
      "This is a simulated response from " ++ modelName ++ ". I received " ++
        toString messageCount ++ " message(s) in this conversation.",
      "I'm " ++ modelName ++ ", processing your request about \"" ++
        substring0 userMessage 40 ++
        (if userMessage.length > 40 then "..." else "") ++
        "\". This is a mock response for PoC purposes.",
      modelName ++ " here! I understand you're asking about \"" ++
        substring0 userMessage 30 ++
        (if userMessage.length > 30 then "..." else "") ++
        "\". Let me provide a dummy response for testing." ]
  responses.getD (userMessage.length % responses.length) ""

/-- `DummyModelProvider.provideLanguageModelChatResponse`
(src/unnamed/part_000, lines 2172–2215), with the two cancellation
checks surfaced as Booleans (`cancelled1` before the 500 ms delay,
`cancelled2` after it).  An early cancellation returns normally having
reported nothing (`some []`).  Otherwise the code reads
`messages[messages.length - 1]` with no emptiness guard: on an empty
list the JS access yields `undefined` and the subsequent
`lastMessage.content` dereference throws, which the model renders as
`none` (no defined result).  On a non-empty list the streamed words
are returned. -/
def provideLanguageModelChatResponse (modelName : String)
    (cancelled1 cancelled2 : Bool) (messages : List ChatMessage) :
    Option (List String) :=
  if cancelled1 then some [] else
  if cancelled2 then some [] else
  match messages.getLast? with
  | none => none
  | some lastMessage =>
      let userMessageText := messageText lastMessage
      let responseText :=
        generateDummyResponse modelName userMessageText messages.length
      some (responseText.splitOn " ")

/-! ## Session-lifecycle coordinator glue (`DummyProvidersContribution`,
src/src/extension/dummyProviders/vscode-node/dummyProvidersContribution.ts)

The host-visible state is: the single-account session store of the
`my-dummy-authentication` provider (an `Option AuthSession`), the
`github.copilot.dummyAuth.signedIn` context key, and whether an
"offer sign-in" request (the Accounts-menu entry created by
`getSession {createIfNone: true}`) is currently registered with the host.
Each handler of the contribution runs atomically over this state and emits a
list of host actions. -/

/-- The provider id used throughout the contribution. -/
def dummyProviderId : String := "my-dummy-authentication"

/-- Host-visible system state. -/
structure SysState where
  store : Option AuthSession
  signedInKey : Bool
  offerRequested : Bool
deriving DecidableEq, Repr

/-- Host actions a handler performs. -/
inductive HostAction where
  | setContext (value : Bool)
  | fireModelChange
  | requestAccess
  | showInfo (msg : String)
  | showError (msg : String)
deriving DecidableEq, Repr

/-- `requestSessionAccess` (dummyProvidersContribution.ts, lines 87–96):
`getSession(..., {createIfNone: true})` registers the offer-sign-in
affordance with the host; the promise's rejection is ignored.  Its effect on
the coordinator-visible state is to register the offer. -/
def requestSessionAccess (st : SysState) : SysState :=
  { st with offerRequested := true }

/-- The `onDidChangeSessions` handler (dummyProvidersContribution.ts,
lines 100–127): for the dummy provider it re-queries the session
(`createIfNone: false, silent: true`), writes the context key from the query
result, fires the model-change event, and — when no session exists —
re-issues `requestSessionAccess`. -/
def onDidChangeSessions (providerId : String) (st : SysState) :
    SysState × List HostAction :=
  if providerId = dummyProviderId then
    let isSignedIn := st.store.isSome
    let st1 := { st with signedInKey := isSignedIn }
    if isSignedIn then
      (st1, [HostAction.setContext isSignedIn, HostAction.fireModelChange])
    else
      (requestSessionAccess st1,
       [HostAction.setContext isSignedIn, HostAction.fireModelChange,
        HostAction.requestAccess])
  else (st, [])

/-- The constructor of `DummyProvidersContribution`
(dummyProvidersContribution.ts, lines 34–183) as it affects the modelled
state: initialise the context key to `false` (line 47), then
`updateSignInContext()` — query the session and write the key from the
result (lines 57–66 and 130) — then the initial `requestSessionAccess`
(line 136). -/
def contributionInit (store0 : Option AuthSession) : SysState :=
  let st0 : SysState := ⟨store0, false, false⟩
  let st1 := { st0 with signedInKey := st0.store.isSome }
  requestSessionAccess st1

/-- External events driving the contribution after construction. -/
inductive Ev where
  /-- The host or the auth provider mutates the session store (session
  created or removed) and fires the change event for the dummy provider. -/
  | hostMutation (newStore : Option AuthSession)
  /-- The `github.copilot.dummy.signIn` command: `result` is the outcome of
  `getSession {createIfNone: true}` — `some s` when a session was returned,
  `none` when the call rejected (error caught by the handler). -/
  | signInCmd (result : Option AuthSession)
  /-- The `github.copilot.dummy.signOut` command with the user's answer to
  the confirmation dialog. -/
  | signOutCmd (confirmed : Bool)
  /-- A session-change event of some other provider. -/
  | otherChange (providerId : String)
deriving DecidableEq, Repr

/-- One atomic step of the contribution: the event's own handler runs to
completion, including the synchronous processing of any
`onDidChangeSessions` event raised by a store mutation it performs. -/
def step (st : SysState) : Ev → SysState × List HostAction
  | Ev.hostMutation newStore =>
      onDidChangeSessions dummyProviderId { st with store := newStore }
  | Ev.signInCmd result =>
      match result with
      | none =>
          -- `catch (error)`: vscode.window.showErrorMessage(...)
          (st, [HostAction.showError "Failed to sign in with Dummy Auth"])
      | some s =>
          -- getSession created (or returned) a session; the provider fires
          -- the change event, whose handler runs; then the command handler
          -- itself sets the context key to true (lines 201–207).
          let stMut := { st with store := some s }
          let r := onDidChangeSessions dummyProviderId stMut
          ({ r.1 with signedInKey := true },
           r.2 ++ [HostAction.setContext true,
                   HostAction.showInfo "Dummy authentication successful"])
  | Ev.signOutCmd confirmed =>
      match st.store with
      | none => (st, [HostAction.showInfo "No active Dummy Auth session"])
      | some _ =>
          if confirmed then
            -- removeSession: the provider empties the store and fires the
            -- change event, whose handler runs (lines 236–242).
            let r := onDidChangeSessions dummyProviderId
                       { st with store := none }
            (r.1, r.2 ++ [HostAction.showInfo "Signed out of Dummy Auth"])
          else (st, [])
  | Ev.otherChange providerId => onDidChangeSessions providerId st

/-- Run the contribution from a freshly constructed state through a list of
events. -/
def run (store0 : Option AuthSession) (evs : List Ev) : SysState :=
  evs.foldl (fun st e => (step st e).1) (contributionInit store0)

/-! ## Error conversion at the entry points (for the crash-safety claim)

Each entry point is embedded as a total function from the outcomes of its
fallible inner operations (given as `Except String _` values) to the list of
host actions it performs; the codomain contains no error, so producing a
value at an erroneous input is exactly "the error is caught and converted". -/

/-- The rejection continuation of `requestSessionAccess`
(lines 92–95): errors are swallowed, nothing is reported. -/
def requestSessionAccessOutcome (r : Except String AuthSession) :
    List HostAction :=
  match r with
  | Except.ok _ => []
  | Except.error _ => []

/-- The `github.copilot.dummy.signIn` command handler (lines 190–213):
`try { getSession; if (session) {setContext; showInfo} } catch {showError}`. -/
def signInCommandOutcome (r : Except String (Option AuthSession)) :
    List HostAction :=
  match r with
  | Except.error e =>
      [HostAction.showError ("Failed to sign in with Dummy Auth: " ++ e)]
  | Except.ok none => []
  | Except.ok (some s) =>
      [HostAction.setContext true,
       HostAction.showInfo
         ("Dummy authentication successful! Signed in as: " ++ s.accountLabel)]

/-- The `github.copilot.dummy.signOut` command handler (lines 221–249):
all three awaited operations — the session query, the confirmation dialog
and `removeSession` — run inside the `try`; any rejection reaches the
`catch` and becomes `showError`. -/
def signOutCommandOutcome (q : Except String (Option AuthSession))
    (confirmed : Except String Bool) (removal : Except String Unit) :
    List HostAction :=
  match q with
  | Except.error e => [HostAction.showError ("Failed to sign out: " ++ e)]
  | Except.ok none => [HostAction.showInfo "No active Dummy Auth session"]
  | Except.ok (some _) =>
      match confirmed with
      | Except.error e => [HostAction.showError ("Failed to sign out: " ++ e)]
      | Except.ok false => []
      | Except.ok true =>
          match removal with
          | Except.error e =>
              [HostAction.showError ("Failed to sign out: " ++ e)]
          | Except.ok _ => [HostAction.showInfo "Signed out of Dummy Auth"]

/-! ## OAuth2 / session-store core

The implementation files of the OAuth2 service, the auth provider's session
store and the PKCE engine are not among the sources here (only their callers
are), so this part is modelled from the specification text (spec.md §3–§5,
§7–§8). -/

/-- Modelled from the spec: a `TokenSet` (spec.md §3) — access token,
optional refresh token, token type, expiry instant, granted scopes.  The
implementation file owning it (the OAuth2 service) is missing from the
sources. -/
structure TokenSet where
  accessToken : String
  refreshToken : Option String
  tokenType : String
  expiresAt : Nat
  scopes : List String
deriving DecidableEq, Repr

/-- Modelled from the spec: a `Session` (spec.md §3) — unique id, account
label, token set, creation timestamp.  The session-store implementation is
missing from the sources. -/
structure StoredSession where
  id : String
  accountLabel : String
  tokens : TokenSet
  createdAt : Nat
deriving DecidableEq, Repr

/-- Modelled from the spec: a `PendingFlow` (spec.md §3) — the CSRF `state`,
the PKCE verifier and derived challenge, a creation timestamp and a
cancellation flag.  The coordinator implementation owning it is missing from
the sources. -/
structure PendingFlow where
  state : String
  verifier : String
  challenge : String
  createdAt : Nat
  cancelled : Bool
deriving DecidableEq, Repr

/-- Modelled from the spec: the error taxonomy of spec.md §7 relevant to the
store and redirect handling. -/
inductive AuthError where
  | networkError
  | authServerError (code : String)
  | stateMismatchError
  | flowAlreadyConsumed
  | flowTimedOut
  | flowFailed (reason : String)
  | duplicateSessionError
  | notFound
  | noRefreshTokenError
deriving DecidableEq, Repr

/-- Modelled from the spec: the "state changed" notification emitted on the
standard notification path (spec.md §4.3, §4.4). -/
inductive StoreNotif where
  | sessionsChanged
deriving DecidableEq, Repr

/-- Modelled from the spec: the coordinator-owned state (spec.md §4.4, §5):
the session store in insertion order, the single optional `PendingFlow`
slot, and the set of already-consumed `state` values (each `state` is
consumed exactly once, spec.md §3 invariants and §5 ordering guarantees). -/
structure CoordState where
  store : List StoredSession
  pending : Option PendingFlow
  consumed : List String
deriving DecidableEq, Repr

/-- Modelled from the spec: `remove(id)` of the session store (spec.md
§4.3) — deletes the session if present; removing a nonexistent id is a
no-op that still triggers the standard state-changed notification path
exactly once. -/
def removeSession (id : String) (st : CoordState) :
    CoordState × List StoreNotif :=
  ({ st with store := st.store.filter (fun s => s.id ≠ id) },
   [StoreNotif.sessionsChanged])

/-- Modelled from the spec: a redirect callback (spec.md §6) — either
`?code=<code>&state=<state>` or `?error=<code>&...&state=<state>`. -/
structure Callback where
  state : String
  payload : Except String String
deriving Repr

/-- Modelled from the spec: redirect-callback handling by the coordinator
(spec.md §4.4, §5, §8).  An already-consumed `state` fails with
`flowAlreadyConsumed` (single-use slot, §5); a `state` matching no pending
flow fails with `stateMismatchError` and discards nothing (§4.4); a matching
callback carrying an `error` parameter fails the flow (pending slot
cleared); a matching success callback exchanges the code (`exchange` is the
token-endpoint interaction, a parameter of the model), stores the new
session, consumes the `state` and fires the change notification. -/
def handleRedirect (exchange : String → PendingFlow → Except AuthError TokenSet)
    (mkId : CoordState → String) (now : Nat) (cb : Callback)
    (st : CoordState) :
    Except AuthError StoredSession × CoordState × List StoreNotif :=
  if cb.state ∈ st.consumed then
    (Except.error AuthError.flowAlreadyConsumed, st, [])
  else
    match st.pending with
    | none => (Except.error AuthError.stateMismatchError, st, [])
    | some flow =>
        if cb.state = flow.state then
          match cb.payload with
          | Except.error reason =>
              (Except.error (AuthError.flowFailed reason),
               { st with pending := none,
                         consumed := flow.state :: st.consumed }, [])
          | Except.ok code =>
              match exchange code flow with
              | Except.error e =>
                  (Except.error e,
                   { st with pending := none,
                             consumed := flow.state :: st.consumed }, [])
              | Except.ok tokens =>
                  let session : StoredSession :=
                    ⟨mkId st, "dummy-user", tokens, now⟩
                  (Except.ok session,
                   { st with store := st.store ++ [session],
                             pending := none,
                             consumed := flow.state :: st.consumed },
                   [StoreNotif.sessionsChanged])
        else (Except.error AuthError.stateMismatchError, st, [])

/-! ## Theorems -/

/-- C9: `DummyModelProvider.provideLanguageModelChatInformation` returns the
empty list when no `my-dummy-authentication` session exists, and exactly the
three fixed models (`dummy-fast`, `dummy-smart`, `dummy-pro`, each user
selectable and with the tool-calling capability) when a session exists. -/
theorem modelListing_gated_on_auth :
    provideLanguageModelChatInformation none = [] ∧
    (∀ s : AuthSession,
      provideLanguageModelChatInformation (some s) = dummyModels) ∧
    dummyModels.map (fun m => m.id) =
      ["dummy-fast", "dummy-smart", "dummy-pro"] ∧
    dummyModels.all (fun m => m.isUserSelectable && m.toolCalling) = true := by
  exact ⟨rfl, fun _ => rfl, rfl, rfl⟩

/-- C10: `provideLanguageModelChatResponse` reads
`messages[messages.length - 1]` with no emptiness guard: for a non-empty
message list (whatever the cancellation flags) the call has a defined
result, while for the empty list with no prior cancellation the unguarded
access leaves the operation with no defined result. -/
theorem chatResponse_requires_nonempty_messages (modelName : String)
    (cancelled1 cancelled2 : Bool) (messages : List ChatMessage) :
    (messages ≠ [] →
      (provideLanguageModelChatResponse modelName cancelled1 cancelled2
        messages).isSome = true) ∧
    (cancelled1 = false → cancelled2 = false →
      provideLanguageModelChatResponse modelName cancelled1 cancelled2 [] =
        none) := by
  constructor
  · intro h
    rcases Option.isSome_iff_exists.mp (List.getLast?_isSome.mpr h) with ⟨m, hm⟩
    cases cancelled1 <;> cases cancelled2 <;>
      simp [provideLanguageModelChatResponse, hm]
  · intro h1 h2
    subst h1; subst h2
    rfl

/-- Closed witness for `chatResponse_requires_nonempty_messages`. -/
theorem chatResponse_requires_nonempty_messages_witness :
    (provideLanguageModelChatResponse "Dummy Fast Model" false false
      [⟨Sum.inl "hi"⟩]).isSome = true ∧
    provideLanguageModelChatResponse "Dummy Fast Model" false false [] =
      none :=
  ⟨(chatResponse_requires_nonempty_messages "Dummy Fast Model" false false
      [⟨Sum.inl "hi"⟩]).1 (by simp),
   (chatResponse_requires_nonempty_messages "Dummy Fast Model" false false
      []).2 rfl rfl⟩

/-- C1: after every session-change event of the dummy provider after which
no session exists, the handler issues the offer-sign-in request
(`requestSessionAccess`) before its handling completes — the emitted action
list contains `requestAccess` and the offer ends up registered — and
re-issuing the request redundantly causes no state change (it is
idempotent). -/
theorem signedOut_reissues_offer (st : SysState) (h : st.store = none) :
    HostAction.requestAccess ∈ (onDidChangeSessions dummyProviderId st).2 ∧
    (onDidChangeSessions dummyProviderId st).1.offerRequested = true ∧
    (∀ s : SysState,
      requestSessionAccess (requestSessionAccess s) =
        requestSessionAccess s) := by
  refine ⟨?_, ?_, fun s => rfl⟩ <;>
    simp [onDidChangeSessions, requestSessionAccess, h]

/-- Closed witness for `signedOut_reissues_offer`. -/
theorem signedOut_reissues_offer_witness :
    HostAction.requestAccess ∈
      (onDidChangeSessions dummyProviderId ⟨none, true, false⟩).2 :=
  (signedOut_reissues_offer ⟨none, true, false⟩ rfl).1

/-- Every atomic step of the contribution preserves
"context key = store non-empty". -/
theorem signedInKey_inv_step (st : SysState) (e : Ev)
    (h : st.signedInKey = st.store.isSome) :
    (step st e).1.signedInKey = (step st e).1.store.isSome := by
  cases e with
  | hostMutation ns =>
      cases ns <;>
        simp [step, onDidChangeSessions, requestSessionAccess]
  | signInCmd r =>
      cases r with
      | none => simpa [step]
      | some s => simp [step, onDidChangeSessions, requestSessionAccess]
  | signOutCmd c =>
      cases hs : st.store with
      | none =>
          simp [step, hs]
          rw [h, hs]
          rfl
      | some s =>
          cases c with
          | true =>
              simp [step, hs, onDidChangeSessions, requestSessionAccess]
          | false =>
              simp [step, hs]
              rw [h, hs]
              rfl
  | otherChange pid =>
      by_cases hp : pid = dummyProviderId
      · subst hp
        cases hs : st.store <;>
          simp [step, hs, onDidChangeSessions, requestSessionAccess]
      · simpa [step, onDidChangeSessions, hp]

/-- The invariant is preserved along any fold of steps. -/
theorem signedInKey_inv_fold (st : SysState) (evs : List Ev)
    (h : st.signedInKey = st.store.isSome) :
    (evs.foldl (fun s e => (step s e).1) st).signedInKey =
      (evs.foldl (fun s e => (step s e).1) st).store.isSome := by
  induction evs generalizing st with
  | nil => simpa
  | cons e evs ih =>
      exact ih _ (signedInKey_inv_step st e h)

/-- C2: at every observable point (after construction and after each fully
handled event), the `github.copilot.dummyAuth.signedIn` context key equals
"the session store is non-empty"; every write of the key in the model is
the result of a session query performed by the handler. -/
theorem signedInKey_matches_store (store0 : Option AuthSession)
    (evs : List Ev) :
    (run store0 evs).signedInKey = (run store0 evs).store.isSome := by
  have hinit : (contributionInit store0).signedInKey =
      (contributionInit store0).store.isSome := by
    cases store0 <;> rfl
  exact signedInKey_inv_fold (contributionInit store0) evs hinit

/-- C8: no error escapes the entry points: the rejection of the inner
`getSession` in `requestSessionAccess` is swallowed, and any rejection
inside the sign-in or sign-out command handlers is converted by their
`try/catch` into an explicit `showError` report — each handler is a total
function into host actions, never a propagated error. -/
theorem entryPoints_convert_errors (e : String) :
    requestSessionAccessOutcome (Except.error e) = [] ∧
    signInCommandOutcome (Except.error e) =
      [HostAction.showError ("Failed to sign in with Dummy Auth: " ++ e)] ∧
    (∀ conf rem, signOutCommandOutcome (Except.error e) conf rem =
      [HostAction.showError ("Failed to sign out: " ++ e)]) ∧
    (∀ s rem,
      signOutCommandOutcome (Except.ok (some s)) (Except.error e) rem =
        [HostAction.showError ("Failed to sign out: " ++ e)]) ∧
    (∀ s,
      signOutCommandOutcome (Except.ok (some s)) (Except.ok true)
          (Except.error e) =
        [HostAction.showError ("Failed to sign out: " ++ e)]) := by
  exact ⟨rfl, rfl, fun _ _ => rfl, fun _ _ => rfl, fun _ => rfl⟩

/-- C5: `remove(id)` is idempotent — removing an id not present in the
store leaves the store unchanged, and every removal (present or not)
triggers exactly the one standard state-changed notification. -/
theorem remove_nonexistent_noop (id : String) (st : CoordState)
    (h : ∀ s ∈ st.store, s.id ≠ id) :
    (removeSession id st).1 = st ∧
    (removeSession id st).2 = [StoreNotif.sessionsChanged] ∧
    (∀ id' st', (removeSession id' st').2 = [StoreNotif.sessionsChanged]) := by
  refine ⟨?_, rfl, fun _ _ => rfl⟩
  cases st with
  | mk store pending consumed =>
      simp only [removeSession]
      congr 1
      rw [List.filter_eq_self]
      intro s hs
      simpa using h s hs

/-- Closed witness for `remove_nonexistent_noop`. -/
theorem remove_nonexistent_noop_witness :
    (removeSession "missing"
      ⟨[⟨"id1", "dummy-user", ⟨"tok", none, "Bearer", 0, []⟩, 0⟩],
        none, []⟩).1 =
      ⟨[⟨"id1", "dummy-user", ⟨"tok", none, "Bearer", 0, []⟩, 0⟩],
        none, []⟩ :=
  (remove_nonexistent_noop "missing" _ (by decide)).1

/-- A successful redirect consumes the callback's `state`: it ends up in
the post-state's consumed set. -/
theorem handleRedirect_ok_consumed
    (ex : String → PendingFlow → Except AuthError TokenSet)
    (mkId : CoordState → String) (now : Nat) (cb : Callback)
    (st : CoordState) (s : StoredSession)
    (h : (handleRedirect ex mkId now cb st).1 = Except.ok s) :
    cb.state ∈ (handleRedirect ex mkId now cb st).2.1.consumed := by
  unfold handleRedirect at h ⊢
  by_cases hc : cb.state ∈ st.consumed
  · rw [if_pos hc] at h
    exact absurd h (by simp)
  · rw [if_neg hc] at h ⊢
    cases hp : st.pending with
    | none =>
        simp only [hp] at h
        exact absurd h (by simp)
    | some f =>
        simp only [hp] at h ⊢
        by_cases hs : cb.state = f.state
        · rw [if_pos hs] at h ⊢
          cases hpay : cb.payload with
          | error r => simp [hpay] at h
          | ok code =>
              simp only [hpay] at h ⊢
              cases hex : ex code f with
              | error e => simp [hex] at h
              | ok tokens => simp [hex, hs]
        · rw [if_neg hs] at h
          exact absurd h (by simp)

/-- C3: a redirect callback whose `state` matches no pending flow (and is
not an already-consumed `state`, which the spec routes to
`FlowAlreadyConsumed`) fails with `StateMismatchError`, leaves the whole
coordinator state — in particular the session store — unchanged and emits
no notification; a genuinely pending flow survives and can still accept its
own matching callback afterwards. -/
theorem stateMismatch_rejected
    (ex : String → PendingFlow → Except AuthError TokenSet)
    (mkId : CoordState → String) (now now' : Nat) (cb : Callback)
    (st : CoordState) (hc : cb.state ∉ st.consumed)
    (hm : ∀ f, st.pending = some f → cb.state ≠ f.state) :
    (handleRedirect ex mkId now cb st).1 =
      Except.error AuthError.stateMismatchError ∧
    (handleRedirect ex mkId now cb st).2.1 = st ∧
    (handleRedirect ex mkId now cb st).2.2 = [] ∧
    (∀ f code tokens, st.pending = some f → f.state ∉ st.consumed →
      ex code f = Except.ok tokens →
      (handleRedirect ex mkId now' ⟨f.state, Except.ok code⟩
          (handleRedirect ex mkId now cb st).2.1).1 =
        Except.ok ⟨mkId st, "dummy-user", tokens, now'⟩) := by
  have h0 : handleRedirect ex mkId now cb st =
      (Except.error AuthError.stateMismatchError, st, []) := by
    unfold handleRedirect
    rw [if_neg hc]
    cases hp : st.pending with
    | none => simp [hp]
    | some f => simp [hp, hm f hp]
  refine ⟨by rw [h0], by rw [h0], by rw [h0], ?_⟩
  intro f code tokens hp hfc hex
  rw [h0]
  show (handleRedirect ex mkId now' ⟨f.state, Except.ok code⟩ st).1 = _
  unfold handleRedirect
  rw [if_neg hfc]
  simp [hp, hex]

/-- Closed witness for `stateMismatch_rejected`. -/
theorem stateMismatch_rejected_witness :
    (handleRedirect (fun _ _ => Except.ok ⟨"tok1", none, "Bearer", 3600, []⟩)
        (fun _ => "id-1") 0 ⟨"sB", Except.ok "abc123"⟩
        ⟨[], some ⟨"sA", "ver", "chal", 0, false⟩, []⟩).1 =
      Except.error AuthError.stateMismatchError :=
  (stateMismatch_rejected
      (fun _ _ => Except.ok ⟨"tok1", none, "Bearer", 3600, []⟩)
      (fun _ => "id-1") 0 1 ⟨"sB", Except.ok "abc123"⟩
      ⟨[], some ⟨"sA", "ver", "chal", 0, false⟩, []⟩
      (by decide) (by intro f hf; cases hf; decide)).1

/-- C4: a pending flow's `state` is accepted at most once — whenever a
first callback with it succeeds, a second callback carrying the same
`state` against the resulting state fails with `FlowAlreadyConsumed`, so
two callbacks with the same `state` can never both succeed. -/
theorem state_accepted_at_most_once
    (ex ex' : String → PendingFlow → Except AuthError TokenSet)
    (mkId mkId' : CoordState → String) (now now' : Nat)
    (cb1 cb2 : Callback) (st : CoordState)
    (hst : cb2.state = cb1.state) :
    (∀ s1, (handleRedirect ex mkId now cb1 st).1 = Except.ok s1 →
      (handleRedirect ex' mkId' now' cb2
          (handleRedirect ex mkId now cb1 st).2.1).1 =
        Except.error AuthError.flowAlreadyConsumed) ∧
    ¬(∃ s1 s2, (handleRedirect ex mkId now cb1 st).1 = Except.ok s1 ∧
        (handleRedirect ex' mkId' now' cb2
            (handleRedirect ex mkId now cb1 st).2.1).1 =
          Except.ok s2) := by
  have main : ∀ s1, (handleRedirect ex mkId now cb1 st).1 = Except.ok s1 →
      (handleRedirect ex' mkId' now' cb2
          (handleRedirect ex mkId now cb1 st).2.1).1 =
        Except.error AuthError.flowAlreadyConsumed := by
    intro s1 h1
    have hmem := handleRedirect_ok_consumed ex mkId now cb1 st s1 h1
    have hmem2 : cb2.state ∈
        (handleRedirect ex mkId now cb1 st).2.1.consumed := by
      rw [hst]; exact hmem
    generalize hgen : (handleRedirect ex mkId now cb1 st).2.1 = st2 at hmem2 ⊢
    unfold handleRedirect
    rw [if_pos hmem2]
  refine ⟨main, ?_⟩
  rintro ⟨s1, s2, h1, h2⟩
  rw [main s1 h1] at h2
  exact Except.noConfusion h2

/-- Closed witness for `state_accepted_at_most_once`. -/
theorem state_accepted_at_most_once_witness :
    (handleRedirect (fun _ _ => Except.ok ⟨"tok1", none, "Bearer", 3600, []⟩)
        (fun _ => "id-2") 1 ⟨"sA", Except.ok "abc123"⟩
        (handleRedirect
            (fun _ _ => Except.ok ⟨"tok1", none, "Bearer", 3600, []⟩)
            (fun _ => "id-1") 0 ⟨"sA", Except.ok "abc123"⟩
            ⟨[], some ⟨"sA", "ver", "chal", 0, false⟩, []⟩).2.1).1 =
      Except.error AuthError.flowAlreadyConsumed :=
  (state_accepted_at_most_once
      (fun _ _ => Except.ok ⟨"tok1", none, "Bearer", 3600, []⟩)
      (fun _ _ => Except.ok ⟨"tok1", none, "Bearer", 3600, []⟩)
      (fun _ => "id-1") (fun _ => "id-2") 0 1
      ⟨"sA", Except.ok "abc123"⟩ ⟨"sA", Except.ok "abc123"⟩
      ⟨[], some ⟨"sA", "ver", "chal", 0, false⟩, []⟩ rfl).1
    ⟨"id-1", "dummy-user", ⟨"tok1", none, "Bearer", 3600, []⟩, 0⟩ rfl

/-! ## PKCE engine

Modelled from the spec (spec.md §4.1): the PKCE engine's implementation
file is missing from the sources.  `newVerifier` base64url-encodes 64 bytes
of entropy; `challengeFor` is the SHA-256 digest of the verifier,
base64url-encoded without padding.  SHA-256 is implemented per FIPS 180-4
over `Nat` words reduced mod `2^32`; bytes are `Nat` values `< 256`. -/

/-- `2^32`, the word modulus of SHA-256. -/
def w32 : Nat := 4294967296

/-- Right rotation of a 32-bit word. -/
def rotr (n x : Nat) : Nat := ((x >>> n) ||| (x <<< (32 - n))) % w32

/-- FIPS 180-4 `Ch(x,y,z)`. -/
def ch (x y z : Nat) : Nat := (x &&& y) ^^^ ((x ^^^ 4294967295) &&& z)

/-- FIPS 180-4 `Maj(x,y,z)`. -/
def maj (x y z : Nat) : Nat := (x &&& y) ^^^ (x &&& z) ^^^ (y &&& z)

/-- FIPS 180-4 `Σ₀`. -/
def bigSigma0 (x : Nat) : Nat := rotr 2 x ^^^ rotr 13 x ^^^ rotr 22 x

/-- FIPS 180-4 `Σ₁`. -/
def bigSigma1 (x : Nat) : Nat := rotr 6 x ^^^ rotr 11 x ^^^ rotr 25 x

/-- FIPS 180-4 `σ₀`. -/
def smallSigma0 (x : Nat) : Nat := rotr 7 x ^^^ rotr 18 x ^^^ (x >>> 3)

/-- FIPS 180-4 `σ₁`. -/
def smallSigma1 (x : Nat) : Nat := rotr 17 x ^^^ rotr 19 x ^^^ (x >>> 10)

/-- The SHA-256 round constants `K₀…K₆₃` (FIPS 180-4 §4.2.2; decimal, four
per line, i.e. 0x428a2f98, 0x71374491, ...). -/
def sha256K : List Nat :=
  [1116352408, 1899447441, 3049323471, 3921009573,
   961987163, 1508970993, 2453635748, 2870763221,
   3624381080, 310598401, 607225278, 1426881987,
   1925078388, 2162078206, 2614888103, 3248222580,
   3835390401, 4022224774, 264347078, 604807628,
   770255983, 1249150122, 1555081692, 1996064986,
   2554220882, 2821834349, 2952996808, 3210313671,
   3336571891, 3584528711, 113926993, 338241895,
   666307205, 773529912, 1294757372, 1396182291,
   1695183700, 1986661051, 2177026350, 2456956037,
   2730485921, 2820302411, 3259730800, 3345764771,
   3516065817, 3600352804, 4094571909, 275423344,
   430227734, 506948616, 659060556, 883997877,
   958139571, 1322822218, 1537002063, 1747873779,
   1955562222, 2024104815, 2227730452, 2361852424,
   2428436474, 2756734187, 3204031479, 3329325298]

/-- The SHA-256 working state: eight 32-bit words. -/
structure HashState where
  h0 : Nat
  h1 : Nat
  h2 : Nat
  h3 : Nat
  h4 : Nat
  h5 : Nat
  h6 : Nat
  h7 : Nat
deriving DecidableEq, Repr

/-- The SHA-256 initial hash value `H⁽⁰⁾` (FIPS 180-4 §5.3.3; decimal,
i.e. 0x6a09e667, 0xbb67ae85, ..., 0x5be0cd19). -/
def sha256Init : HashState :=
  ⟨1779033703, 3144134277, 1013904242, 2773480762,
   1359893119, 2600822924, 528734635, 1541459225⟩

/-- Group a byte list into big-endian 32-bit words. -/
def toWords : List Nat → List Nat
  | b0 :: b1 :: b2 :: b3 :: rest =>
      (((b0 * 256 + b1) * 256 + b2) * 256 + b3) :: toWords rest
  | _ => []

/-- Extend the first 16 schedule words to 64 (FIPS 180-4 §6.2.2 step 1). -/
def extendSchedule (w16 : Array Nat) : Array Nat :=
  (List.range 48).foldl
    (fun w i =>
      let t := i + 16
      w.push ((smallSigma1 (w.getD (t - 2) 0) + w.getD (t - 7) 0 +
               smallSigma0 (w.getD (t - 15) 0) + w.getD (t - 16) 0) % w32))
    w16

/-- One SHA-256 round (FIPS 180-4 §6.2.2 step 3). -/
def sha256Round (s : HashState) (k w : Nat) : HashState :=
  let t1 := (s.h7 + bigSigma1 s.h4 + ch s.h4 s.h5 s.h6 + k + w) % w32
  let t2 := (bigSigma0 s.h0 + maj s.h0 s.h1 s.h2) % w32
  ⟨(t1 + t2) % w32, s.h0, s.h1, s.h2, (s.h3 + t1) % w32, s.h4, s.h5, s.h6⟩

/-- Compress one 64-byte block into the hash state. -/
def compressBlock (h : HashState) (block : List Nat) : HashState :=
  let ws := (extendSchedule (toWords block).toArray).toList
  let s := (sha256K.zip ws).foldl (fun s kw => sha256Round s kw.1 kw.2) h
  ⟨(h.h0 + s.h0) % w32, (h.h1 + s.h1) % w32, (h.h2 + s.h2) % w32,
   (h.h3 + s.h3) % w32, (h.h4 + s.h4) % w32, (h.h5 + s.h5) % w32,
   (h.h6 + s.h6) % w32, (h.h7 + s.h7) % w32⟩

/-- 8-byte big-endian encoding of the bit length. -/
def lengthBytes (n : Nat) : List Nat :=
  [(n >>> 56) % 256, (n >>> 48) % 256, (n >>> 40) % 256, (n >>> 32) % 256,
   (n >>> 24) % 256, (n >>> 16) % 256, (n >>> 8) % 256, n % 256]

/-- SHA-256 padding (FIPS 180-4 §5.1.1): a `0x80` byte, zeros to 56 mod 64,
then the 64-bit big-endian bit length. -/
def padMessage (msg : List Nat) : List Nat :=
  msg ++ [128] ++ List.replicate ((119 - (msg.length % 64)) % 64) 0 ++
    lengthBytes (msg.length * 8)

/-- Split a (padded) byte list into successive 64-byte blocks. -/
def chunks64 : List Nat → List (List Nat)
  | [] => []
  | b :: rest => ((b :: rest).take 64) :: chunks64 ((b :: rest).drop 64)
termination_by l => l.length
decreasing_by simp [List.length_drop]; omega

/-- Big-endian bytes of one 32-bit word. -/
def wordBytes (w : Nat) : List Nat :=
  [(w >>> 24) % 256, (w >>> 16) % 256, (w >>> 8) % 256, w % 256]

/-- SHA-256 of a byte list, as 32 digest bytes. -/
def sha256 (msg : List Nat) : List Nat :=
  let final := (chunks64 (padMessage msg)).foldl compressBlock sha256Init
  wordBytes final.h0 ++ wordBytes final.h1 ++ wordBytes final.h2 ++
  wordBytes final.h3 ++ wordBytes final.h4 ++ wordBytes final.h5 ++
  wordBytes final.h6 ++ wordBytes final.h7

/-- The base64url alphabet (RFC 4648 §5). -/
def base64urlAlphabet : List Char :=
  "ABCDEFGHIJKLMNOPQRSTUVWXYZabcdefghijklmnopqrstuvwxyz0123456789-_".data

/-- The base64url character of a 6-bit value. -/
def b64Char (n : Nat) : Char := base64urlAlphabet.getD n 'A'

/-- base64url encoding without padding (RFC 4648 §5, `=` omitted). -/
def base64urlNoPad : List Nat → List Char
  | [] => []
  | [a] => [b64Char (a >>> 2), b64Char ((a % 4) <<< 4)]
  | [a, b] =>
      [b64Char (a >>> 2), b64Char (((a % 4) <<< 4) ||| (b >>> 4)),
       b64Char ((b % 16) <<< 2)]
  | a :: b :: c :: rest =>
      b64Char (a >>> 2) :: b64Char (((a % 4) <<< 4) ||| (b >>> 4)) ::
      b64Char (((b % 16) <<< 2) ||| (c >>> 6)) :: b64Char (c % 64) ::
      base64urlNoPad rest

/-- Modelled from the spec: `newVerifier()` (spec.md §4.1) — 64 bytes of
entropy, base64url-encoded; the entropy source is a parameter of the
model. -/
def newVerifier (entropy : List Nat) : String :=
  String.mk (base64urlNoPad entropy)

/-- Modelled from the spec: `newState()` (spec.md §4.1) — a random
URL-safe CSRF token from its own entropy. -/
def newState (entropy : List Nat) : String :=
  String.mk (base64urlNoPad entropy)

/-- Modelled from the spec: `challengeFor(verifier)` (spec.md §4.1) — the
SHA-256 digest of the (ASCII/URL-safe) verifier, base64url-encoded without
padding.  A pure function. -/
def challengeFor (verifier : String) : String :=
  String.mk (base64urlNoPad (sha256 (verifier.data.map Char.toNat)))

/-- Length of a padding-free base64url encoding: `⌈8n/6⌉` characters for
`n` bytes. -/
theorem base64urlNoPad_length (l : List Nat) :
    (base64urlNoPad l).length = (l.length * 8 + 5) / 6 := by
  induction l using base64urlNoPad.induct with
  | case1 => rfl
  | case2 a => simp [base64urlNoPad]
  | case3 a b => simp [base64urlNoPad]
  | case4 a b c rest ih =>
      simp only [base64urlNoPad, List.length_cons, ih]
      have hx : (rest.length + 1 + 1 + 1) * 8 + 5 =
          (rest.length * 8 + 5) + 4 * 6 := by ring
      rw [hx, Nat.add_mul_div_right _ _ (by norm_num)]

/-- A SHA-256 digest always has 32 bytes. -/
theorem sha256_length (msg : List Nat) : (sha256 msg).length = 32 := by
  simp [sha256, wordBytes]

/-- C6: `challengeFor` is a deterministic pure function — the SHA-256
digest of the verifier, base64url-encoded without padding, hence always 43
characters (the padding-free length of a 32-byte digest) — and a verifier
produced from the recommended 64 bytes of entropy has length 86, within
[43, 128]. -/
theorem pkce_verifier_challenge (entropy : List Nat)
    (h : entropy.length = 64) :
    43 ≤ (newVerifier entropy).length ∧
    (newVerifier entropy).length ≤ 128 ∧
    (∀ v : String, (challengeFor v).length = 43) ∧
    (∀ v₁ v₂ : String, v₁ = v₂ → challengeFor v₁ = challengeFor v₂) := by
  have hver : (newVerifier entropy).length = 86 := by
    show (base64urlNoPad entropy).length = 86
    rw [base64urlNoPad_length, h]
  refine ⟨by omega, by omega, ?_, fun v₁ v₂ hv => hv ▸ rfl⟩
  intro v
  show (base64urlNoPad (sha256 (v.data.map Char.toNat))).length = 43
  rw [base64urlNoPad_length, sha256_length]

/-- Closed witness for `pkce_verifier_challenge`. -/
theorem pkce_verifier_challenge_witness :
    43 ≤ (newVerifier (List.replicate 64 0)).length ∧
    (newVerifier (List.replicate 64 0)).length ≤ 128 :=
  ⟨(pkce_verifier_challenge (List.replicate 64 0) (by simp)).1,
   (pkce_verifier_challenge (List.replicate 64 0) (by simp)).2.1⟩

/-! ## OAuth2 authorization URL construction and query parsing

Modelled from the spec (spec.md §4.2, §6): the OAuth2 client's
implementation file is missing from the sources.  URLs and query strings
are byte lists (`Nat` values `< 256`); percent-encoding follows RFC 3986
(unreserved bytes pass through, everything else becomes `%XX` with
uppercase hex). -/

/-- The code-point bytes of an ASCII string. -/
def strBytes (s : String) : List Nat := s.data.map Char.toNat

/-- RFC 3986 unreserved bytes: ALPHA / DIGIT / `-` / `.` / `_` / `~`. -/
def isUnreservedByte (b : Nat) : Bool :=
  (65 ≤ b && b ≤ 90) || (97 ≤ b && b ≤ 122) || (48 ≤ b && b ≤ 57) ||
  b == 45 || b == 46 || b == 95 || b == 126

/-- Uppercase hex digit byte of a 4-bit value. -/
def hexDigit (n : Nat) : Nat := if n < 10 then 48 + n else 55 + n

/-- Value of an uppercase hex digit byte. -/
def hexVal (b : Nat) : Nat := if b ≤ 57 then b - 48 else b - 55

/-- Percent-encode a byte list. -/
def pctEncode : List Nat → List Nat
  | [] => []
  | b :: bs =>
      (if isUnreservedByte b then [b]
       else [37, hexDigit (b / 16), hexDigit (b % 16)]) ++ pctEncode bs

/-- Percent-decode a byte list (`37` is `%`). -/
def pctDecode : List Nat → List Nat
  | 37 :: h :: l :: bs => (hexVal h * 16 + hexVal l) :: pctDecode bs
  | b :: bs => b :: pctDecode bs
  | [] => []

/-- Join byte lists with a separator byte. -/
def joinSep (sep : Nat) : List (List Nat) → List Nat
  | [] => []
  | [x] => x
  | x :: y :: rest => x ++ sep :: joinSep sep (y :: rest)

/-- Split a byte list at every occurrence of a separator byte. -/
def splitOnByte (sep : Nat) : List Nat → List (List Nat)
  | [] => [[]]
  | b :: bs =>
      match splitOnByte sep bs with
      | [] => [[]]
      | cur :: rest =>
          if b = sep then [] :: cur :: rest else (b :: cur) :: rest

/-- Split a byte list at the first occurrence of a separator byte
(everything if the separator is absent). -/
def splitFirst (sep : Nat) : List Nat → List Nat × List Nat
  | [] => ([], [])
  | b :: bs =>
      if b = sep then ([], bs)
      else (b :: (splitFirst sep bs).1, (splitFirst sep bs).2)

/-- Render one `key=value` query component, percent-encoding both sides
(`61` is `=`). -/
def renderPair (kv : List Nat × List Nat) : List Nat :=
  pctEncode kv.1 ++ 61 :: pctEncode kv.2

/-- Render a query string, components joined by `&` (byte `38`). -/
def renderQuery (params : List (List Nat × List Nat)) : List Nat :=
  joinSep 38 (params.map renderPair)

/-- Parse one `key=value` query component. -/
def parsePair (bs : List Nat) : List Nat × List Nat :=
  (pctDecode (splitFirst 61 bs).1, pctDecode (splitFirst 61 bs).2)

/-- Parse a query string into its key/value pairs. -/
def parseQuery (bs : List Nat) : List (List Nat × List Nat) :=
  (splitOnByte 38 bs).map parsePair

/-- Modelled from the spec: `AuthorizationServerMetadata` (spec.md §3) —
the endpoints relevant to the client. -/
structure ServerMetadata where
  issuer : List Nat
  authorizationEndpoint : List Nat
  tokenEndpoint : List Nat
  revocationEndpoint : Option (List Nat)
deriving DecidableEq, Repr

/-- Modelled from the spec: `OAuth2Config` (spec.md §3) — client id,
optional client secret, server metadata, redirect URI, requested scopes and
the extra authorization parameters. -/
structure OAuth2Config where
  clientId : List Nat
  clientSecret : Option (List Nat)
  serverMetadata : ServerMetadata
  redirectUri : List Nat
  scopes : List (List Nat)
  additionalAuthParams : List (List Nat × List Nat)
deriving DecidableEq, Repr

/-- Modelled from the spec: the query parameters of the authorization URL
(spec.md §4.2) — `response_type=code`, `client_id`, `redirect_uri`,
`scope` (space-joined, byte `32`), `state`, `code_challenge`,
`code_challenge_method=S256`, then any configured extra parameters. -/
def authParams (flow : PendingFlow) (config : OAuth2Config) :
    List (List Nat × List Nat) :=
  [(strBytes "response_type", strBytes "code"),
   (strBytes "client_id", config.clientId),
   (strBytes "redirect_uri", config.redirectUri),
   (strBytes "scope", joinSep 32 config.scopes),
   (strBytes "state", strBytes flow.state),
   (strBytes "code_challenge", strBytes flow.challenge),
   (strBytes "code_challenge_method", strBytes "S256")] ++
  config.additionalAuthParams

/-- Modelled from the spec: `buildAuthorizationURL(flow, config)`
(spec.md §4.2) — the authorization endpoint, `?` (byte `63`), and the
rendered query.  Deterministic, no I/O. -/
def buildAuthorizationURL (flow : PendingFlow) (config : OAuth2Config) :
    List Nat :=
  config.serverMetadata.authorizationEndpoint ++ 63 :: renderQuery (authParams flow config)

/-- The parsed query parameters of a URL: everything after the first `?`. -/
def queryParams (url : List Nat) : List (List Nat × List Nat) :=
  parseQuery (splitFirst 63 url).2

/-- First value bound to a key in a parsed query. -/
def findVal (k : List Nat) : List (List Nat × List Nat) → Option (List Nat)
  | [] => none
  | (k', v) :: rest => if k' = k then some v else findVal k rest

/-- Decoding inverts a hex-digit encoding of a 4-bit value. -/
theorem hexVal_hexDigit (n : Nat) (h : n < 16) : hexVal (hexDigit n) = n := by
  unfold hexVal hexDigit
  split <;> split <;> omega

/-- Hex digit bytes are never `&` (38) or `=` (61). -/
theorem hexDigit_ne (n : Nat) : hexDigit n ≠ 38 ∧ hexDigit n ≠ 61 := by
  unfold hexDigit
  split <;> omega

/-- `pctDecode` passes a non-`%` head byte through. -/
theorem pctDecode_cons_ne (b : Nat) (bs : List Nat) (h : b ≠ 37) :
    pctDecode (b :: bs) = b :: pctDecode bs := by
  rcases bs with _ | ⟨x, _ | ⟨y, t⟩⟩ <;> simp [pctDecode, h]

/-- Percent-decoding inverts percent-encoding on byte lists. -/
theorem pctDecode_pctEncode (bs : List Nat) (h : ∀ b ∈ bs, b < 256) :
    pctDecode (pctEncode bs) = bs := by
  induction bs with
  | nil => rfl
  | cons b bs ih =>
      have hb256 : b < 256 := h b (by simp)
      have ih' := ih (fun x hx => h x (by simp [hx]))
      by_cases hb : isUnreservedByte b
      · have hb37 : b ≠ 37 := by
          intro he; subst he; simp [isUnreservedByte] at hb
        rw [pctEncode, if_pos hb]
        simpa [pctDecode_cons_ne b _ hb37] using ih'
      · rw [pctEncode, if_neg hb]
        show pctDecode (37 :: hexDigit (b / 16) :: hexDigit (b % 16) ::
          pctEncode bs) = b :: bs
        rw [pctDecode, hexVal_hexDigit _ (by omega),
          hexVal_hexDigit _ (by omega), ih']
        congr 1
        omega

/-- Percent-encoded output never contains `&` (38) or `=` (61). -/
theorem pctEncode_ne_sep (bs : List Nat) :
    ∀ b ∈ pctEncode bs, b ≠ 38 ∧ b ≠ 61 := by
  induction bs with
  | nil => simp [pctEncode]
  | cons b bs ih =>
      by_cases hb : isUnreservedByte b
      · rw [pctEncode, if_pos hb]
        intro x hx
        rcases List.mem_append.mp hx with hx | hx
        · simp at hx
          subst hx
          constructor <;> intro he <;> subst he <;>
            simp [isUnreservedByte] at hb
        · exact ih x hx
      · rw [pctEncode, if_neg hb]
        intro x hx
        rcases List.mem_append.mp hx with hx | hx
        · simp at hx
          rcases hx with hx | hx | hx <;> subst hx
          · exact ⟨by omega, by omega⟩
          · exact hexDigit_ne _
          · exact hexDigit_ne _
        · exact ih x hx

/-- Splitting a separator-free byte list yields that list alone. -/
theorem splitOnByte_no_sep (sep : Nat) (bs : List Nat)
    (h : ∀ b ∈ bs, b ≠ sep) : splitOnByte sep bs = [bs] := by
  induction bs with
  | nil => rfl
  | cons b bs ih =>
      rw [splitOnByte, ih (fun x hx => h x (by simp [hx]))]
      simp [h b (by simp)]

/-- Splitting peels off a leading separator-free segment. -/
theorem splitOnByte_append (sep : Nat) (xs ys : List Nat)
    (h : ∀ b ∈ xs, b ≠ sep) :
    splitOnByte sep (xs ++ sep :: ys) = xs :: splitOnByte sep ys := by
  induction xs with
  | nil =>
      simp only [List.nil_append]
      rw [splitOnByte]
      cases hsp : splitOnByte sep ys with
      | nil => exact absurd hsp (by
          cases ys with
          | nil => simp [splitOnByte]
          | cons y t =>
              rw [splitOnByte]
              cases splitOnByte sep t <;> simp
              split <;> simp)
      | cons c r => simp
  | cons x xs ih =>
      simp only [List.cons_append]
      rw [splitOnByte, ih (fun b hb => h b (by simp [hb]))]
      simp [h x (by simp)]

/-- `splitFirst` splits at the first separator when the prefix is
separator-free. -/
theorem splitFirst_append (sep : Nat) (k v : List Nat)
    (h : ∀ b ∈ k, b ≠ sep) : splitFirst sep (k ++ sep :: v) = (k, v) := by
  induction k with
  | nil => simp [splitFirst]
  | cons x xs ih =>
      simp only [List.cons_append]
      rw [splitFirst]
      rw [if_neg (h x (by simp))]
      rw [ih (fun b hb => h b (by simp [hb]))]

/-- Splitting inverts joining for separator-free parts. -/
theorem joinSep_split (sep : Nat) (parts : List (List Nat))
    (hne : parts ≠ []) (h : ∀ p ∈ parts, ∀ b ∈ p, b ≠ sep) :
    splitOnByte sep (joinSep sep parts) = parts := by
  induction parts with
  | nil => exact absurd rfl hne
  | cons x rest ih =>
      cases rest with
      | nil => exact splitOnByte_no_sep sep x (h x (by simp))
      | cons y t =>
          rw [joinSep, splitOnByte_append sep x _ (h x (by simp))]
          rw [ih (by simp) (fun p hp => h p (by simp [hp]))]

/-- Parsing inverts rendering for one query component. -/
theorem parsePair_renderPair (k v : List Nat)
    (hk : ∀ b ∈ k, b < 256) (hv : ∀ b ∈ v, b < 256) :
    parsePair (renderPair (k, v)) = (k, v) := by
  unfold parsePair renderPair
  rw [splitFirst_append 61 _ _ (fun b hb => (pctEncode_ne_sep k b hb).2)]
  simp [pctDecode_pctEncode k hk, pctDecode_pctEncode v hv]

/-- A rendered component never contains the `&` separator. -/
theorem renderPair_ne_amp (kv : List Nat × List Nat) :
    ∀ b ∈ renderPair kv, b ≠ 38 := by
  intro b hb
  unfold renderPair at hb
  rcases List.mem_append.mp hb with hx | hx
  · exact (pctEncode_ne_sep _ b hx).1
  · rcases List.mem_cons.mp hx with hx | hx
    · omega
    · exact (pctEncode_ne_sep _ b hx).1

/-- Parsing inverts rendering for a whole query string. -/
theorem parseQuery_renderQuery (params : List (List Nat × List Nat))
    (hne : params ≠ [])
    (h : ∀ kv ∈ params, (∀ b ∈ kv.1, b < 256) ∧ (∀ b ∈ kv.2, b < 256)) :
    parseQuery (renderQuery params) = params := by
  unfold parseQuery renderQuery
  rw [joinSep_split 38 _ (by simpa using hne)
    (fun p hp => by
      rcases List.mem_map.mp hp with ⟨kv, hkv, hrfl⟩
      exact hrfl ▸ renderPair_ne_amp kv)]
  rw [List.map_map]
  induction params with
  | nil => rfl
  | cons kv rest ih =>
      simp only [List.map_cons, Function.comp]
      rw [show parsePair (renderPair kv) = kv from by
        cases kv with
        | mk k v =>
            exact parsePair_renderPair k v (h (k, v) (by simp)).1
              (h (k, v) (by simp)).2]
      cases rest with
      | nil => rfl
      | cons kv2 rest2 =>
          rw [ih (by simp) (fun x hx => h x (by simp at hx ⊢; tauto))]

/-- C7: parsing the query of `buildAuthorizationURL flow config` recovers
exactly the `state` and `code_challenge` generated for the flow, for any
flow and any well-formed config (authorization endpoint free of `?`, all
parameter bytes genuine bytes `< 256`); extra configured parameters cannot
shadow them since the generated pairs come first. -/
theorem buildAuthorizationURL_roundtrip (flow : PendingFlow)
    (config : OAuth2Config)
    (hend : ∀ b ∈ config.serverMetadata.authorizationEndpoint, b ≠ 63)
    (hbytes : ∀ kv ∈ authParams flow config,
      (∀ b ∈ kv.1, b < 256) ∧ (∀ b ∈ kv.2, b < 256)) :
    findVal (strBytes "state")
        (queryParams (buildAuthorizationURL flow config)) =
      some (strBytes flow.state) ∧
    findVal (strBytes "code_challenge")
        (queryParams (buildAuthorizationURL flow config)) =
      some (strBytes flow.challenge) := by
  have hq : queryParams (buildAuthorizationURL flow config) =
      authParams flow config := by
    unfold queryParams buildAuthorizationURL
    rw [splitFirst_append 63 _ _ hend]
    exact parseQuery_renderQuery _ (by simp [authParams]) hbytes
  rw [hq]
  unfold authParams
  simp only [List.cons_append, List.nil_append]
  constructor
  · rw [findVal, if_neg (by decide), findVal, if_neg (by decide),
      findVal, if_neg (by decide), findVal, if_neg (by decide),
      findVal, if_pos rfl]
  · rw [findVal, if_neg (by decide), findVal, if_neg (by decide),
      findVal, if_neg (by decide), findVal, if_neg (by decide),
      findVal, if_neg (by decide), findVal, if_pos rfl]

/-- A concrete configuration mirroring the `getOAuth2Config` defaults
(dummyProvidersContribution.ts, lines 291–319), for the closed witness. -/
def exampleConfig : OAuth2Config :=
  ⟨strBytes "your-client-id", none,
   ⟨strBytes "https://example.com",
    strBytes "https://example.com/oauth2/authorize",
    strBytes "https://example.com/oauth2/token", none⟩,
   strBytes "vscode://github.copilot-chat/oauth/callback",
   [strBytes "openid", strBytes "email", strBytes "profile"], []⟩

/-- A concrete pending flow for the closed witness. -/
def exampleFlow : PendingFlow :=
  ⟨"xyzStateToken", "example-verifier", "example-challenge", 0, false⟩

/-- Closed witness for `buildAuthorizationURL_roundtrip`. -/
theorem buildAuthorizationURL_roundtrip_witness :
    findVal (strBytes "state")
        (queryParams (buildAuthorizationURL exampleFlow exampleConfig)) =
      some (strBytes "xyzStateToken") :=
  (buildAuthorizationURL_roundtrip exampleFlow exampleConfig
    (by decide) (by decide)).1

end DummyProviders
